/-
  Verification of the provider-abstraction / encryption / api-key-store core
  of the Shopify AI content-generation app.

  Shallow embedding: each TypeScript function of the core is translated into
  an executable Lean definition; external effects (the metafield store, the
  AES cipher, the LLM HTTP round trip) are passed in explicitly as state or
  as oracle functions, so that the control flow of the translated code is
  exactly the source's.
-/
import Mathlib

set_option maxHeartbeats 1000000

namespace Spec2Proof

/-! ## Data model (from src/app/models usage and spec section 3) -/

inductive Tone
  | professional
  | casual
  | enthusiastic
deriving DecidableEq, Repr

structure GenerationOptions where
  length : Int
  tone : Option Tone
  includeKeywords : Option (List String)
deriving DecidableEq, Repr

structure ProductContent where
  title : String
  description : String
  seoTitle : Option String
  seoDescription : Option String
  keywords : Option (List String)
deriving DecidableEq, Repr

structure GenerationMetadata where
  model : String
  promptTokens : Option Nat
  completionTokens : Option Nat
  totalTokens : Option Nat
deriving DecidableEq, Repr

structure ContentGenerationResult where
  success : Bool
  content : Option ProductContent
  error : Option String
  errorCode : Option String
  metadata : Option GenerationMetadata
deriving DecidableEq, Repr

structure ProductData where
  id : String
  title : String
  description : Option String
  images : List String
deriving DecidableEq, Repr

structure ApiKeyRecord where
  provider : String
  apiKey : String
deriving DecidableEq, Repr

/-! ## Provider selection (src/app/facades/aiService.ts, getProvider)

The source lowercases the identifier (`provider.toLowerCase()`), then
switches on the mixed-case literals 'openaiApiKey' / 'deepseekApiKey'.
`jsToLowerCase` models JavaScript's toLowerCase on the ASCII identifiers
the app uses (Char.toLower lowers exactly the ASCII uppercase letters). -/

inductive AIProvider
  | openai
  | deepseek
deriving DecidableEq, Repr

def jsToLowerCase (s : String) : String :=
  String.mk (s.data.map Char.toLower)

def getProvider (provider : String) : Except String AIProvider :=
  let p := jsToLowerCase provider
  if p = "openaiApiKey" then Except.ok AIProvider.openai
  else if p = "deepseekApiKey" then Except.ok AIProvider.deepseek
  else Except.error ("Unsupported AI provider: " ++ provider)

/-! ## Structured-text parser
(src/app/utils/ai-providers/openai.ts and deepseek.ts, parseGeneratedContent)

Each section is extracted with the JavaScript regex
  /# HEADING\s*\n([\s\S]*?)(?=\n# |$)/
The embedding reproduces the engine's behaviour on this pattern: the match
is attempted at each position left to right; after the literal heading, the
greedy \s* backtracks so that the following \n lands on the last newline of
the maximal whitespace run; the lazy capture stops at the first position
where the rest of the input starts with "\n# " or is empty. -/

def isJsWhitespace (c : Char) : Bool :=
  c == ' ' || c == '\t' || c == '\n' || c == '\x0B' || c == '\x0C' || c == '\r' || c == '\xA0'

def listStartsWith : List Char → List Char → Bool
  | [], _ => true
  | _ :: _, [] => false
  | p :: ps, c :: cs => p == c && listStartsWith ps cs

def dropExact : List Char → List Char → Option (List Char)
  | [], s => some s
  | _ :: _, [] => none
  | p :: ps, c :: cs => if p = c then dropExact ps cs else none

/-- The suffix after the last newline of l, or none when l has no newline. -/
def afterLastNewline : List Char → Option (List Char)
  | [] => none
  | c :: cs =>
    match afterLastNewline cs with
    | some r => some r
    | none => if c = '\n' then some cs else none

/-- Matches `pat` followed by \s*\n at the head of s; returns the remainder. -/
def matchHeadingAt (pat : List Char) (s : List Char) : Option (List Char) :=
  match dropExact pat s with
  | none => none
  | some rest =>
    match afterLastNewline (rest.takeWhile isJsWhitespace) with
    | some wsSuffix => some (wsSuffix ++ rest.dropWhile isJsWhitespace)
    | none => none

/-- The lazy capture [\s\S]*? up to the lookahead (?=\n# |$). -/
def lazyCapture : List Char → List Char
  | [] => []
  | c :: cs =>
    if listStartsWith ['\n', '#', ' '] (c :: cs) then []
    else c :: lazyCapture cs

/-- First match of the section regex over the whole input, leftmost start. -/
def findSection (pat : List Char) : List Char → Option (List Char)
  | [] =>
    match matchHeadingAt pat [] with
    | some rest => some (lazyCapture rest)
    | none => none
  | c :: cs =>
    match matchHeadingAt pat (c :: cs) with
    | some rest => some (lazyCapture rest)
    | none => findSection pat cs

/-- JavaScript String.trim on a character list. -/
def jsTrim (l : List Char) : List Char :=
  ((l.dropWhile isJsWhitespace).reverse.dropWhile isJsWhitespace).reverse

/-- JavaScript String.split with a one-character separator. -/
def splitOnChar (sep : Char) : List Char → List (List Char)
  | [] => [[]]
  | c :: cs =>
    if c = sep then [] :: splitOnChar sep cs
    else
      match splitOnChar sep cs with
      | [] => [[c]]
      | h :: t => (c :: h) :: t

def sectionOf (heading : String) (raw : String) : Option (List Char) :=
  findSection heading.data raw.data

def parseGeneratedContent (rawContent : String) : ProductContent :=
  { title :=
      match sectionOf "# TITLE" rawContent with
      | some cap => if cap = [] then "" else String.mk (jsTrim cap)
      | none => ""
    description :=
      match sectionOf "# DESCRIPTION" rawContent with
      | some cap => if cap = [] then "" else String.mk (jsTrim cap)
      | none => ""
    seoTitle :=
      match sectionOf "# SEO_TITLE" rawContent with
      | some cap => if cap = [] then none else some (String.mk (jsTrim cap))
      | none => none
    seoDescription :=
      match sectionOf "# SEO_DESCRIPTION" rawContent with
      | some cap => if cap = [] then none else some (String.mk (jsTrim cap))
      | none => none
    keywords :=
      match sectionOf "# KEYWORDS" rawContent with
      | some cap =>
        if cap = [] then none
        else
          some (((splitOnChar ',' (jsTrim cap)).map (fun t => String.mk (jsTrim t))).filter
            (fun s => s.length > 0))
      | none => none }

/-! ## Encryption service (src/unnamed/part_003: app/utils/encryption.ts)

encrypt draws a fresh 16-byte IV, hex-encodes it and joins it with the hex
cipher output on ':'.  decrypt splits on ':', requires exactly two parts,
decodes the IV from hex and runs the decipher; any failure is caught and
rethrown as 'Failed to decrypt data'.  The AES-256-CBC cipher itself is an
external primitive: it enters the model as a pair of oracle functions
(encFn for createCipheriv+update+final producing the hex ciphertext, decFn
for createDecipheriv+update+final, none modelling a throw), quantified in
the theorems together with the facts the claims rely on (the cipher output
is hex text, and deciphering inverts enciphering under the same key/IV).
The hex decoding is modelled strictly (none on a non-hex or odd-length
segment); this is only reachable for tokens no encrypt call produces. -/

abbrev Byte := Fin 256

def hexDigit (n : Nat) : Char :=
  if n < 10 then Char.ofNat (48 + n) else Char.ofNat (87 + n)

def hexDigitVal (c : Char) : Option (Fin 16) :=
  if h : 48 ≤ c.toNat ∧ c.toNat ≤ 57 then some ⟨c.toNat - 48, by omega⟩
  else if h2 : 97 ≤ c.toNat ∧ c.toNat ≤ 102 then some ⟨c.toNat - 87, by omega⟩
  else if h3 : 65 ≤ c.toNat ∧ c.toNat ≤ 70 then some ⟨c.toNat - 55, by omega⟩
  else none

def isHexDigitChar (c : Char) : Bool :=
  (hexDigitVal c).isSome

def hexEncodeBytes : List Byte → List Char
  | [] => []
  | b :: bs => hexDigit (b.val / 16) :: hexDigit (b.val % 16) :: hexEncodeBytes bs

def hexDecodeChars : List Char → Option (List Byte)
  | [] => some []
  | [_] => none
  | c1 :: c2 :: rest =>
    match hexDigitVal c1, hexDigitVal c2, hexDecodeChars rest with
    | some hi, some lo, some bs =>
      some (⟨hi.val * 16 + lo.val, by have := hi.isLt; have := lo.isLt; omega⟩ :: bs)
    | _, _, _ => none

def encryptModel (encFn : List Byte → List Byte → String → String)
    (key iv : List Byte) (plaintext : String) : String :=
  String.mk (hexEncodeBytes iv) ++ ":" ++ encFn key iv plaintext

def decryptModel (decFn : List Byte → List Byte → String → Option String)
    (key : List Byte) (encryptedText : String) : Except String String :=
  match splitOnChar ':' encryptedText.data with
  | [ivHex, encrypted] =>
    match hexDecodeChars ivHex with
    | some iv =>
      match decFn key iv (String.mk encrypted) with
      | some plain => Except.ok plain
      | none => Except.error "Failed to decrypt data"
    | none => Except.error "Failed to decrypt data"
  | _ => Except.error "Failed to decrypt data"

/-! ### Supporting lemmas for the encryption theorems -/

theorem data_append (a b : String) : (a ++ b).data = a.data ++ b.data := rfl

theorem mk_data (s : String) : String.mk s.data = s := rfl

theorem hexDigitVal_hexDigit : ∀ n : Fin 16, hexDigitVal (hexDigit n.val) = some n := by
  decide

theorem hexDigitVal_hexDigit_of_lt {n : Nat} (h : n < 16) :
    hexDigitVal (hexDigit n) = some ⟨n, h⟩ :=
  hexDigitVal_hexDigit ⟨n, h⟩

theorem hexDecode_hexEncode (bs : List Byte) : hexDecodeChars (hexEncodeBytes bs) = some bs := by
  induction bs with
  | nil => rfl
  | cons b bs ih =>
    have hd : b.val / 16 < 16 := by have := b.isLt; omega
    have hm : b.val % 16 < 16 := by have := b.isLt; omega
    simp only [hexEncodeBytes, hexDecodeChars, hexDigitVal_hexDigit_of_lt hd,
      hexDigitVal_hexDigit_of_lt hm, ih, Option.some.injEq, List.cons.injEq, Fin.ext_iff]
    refine ⟨?_, trivial⟩
    show b.val / 16 * 16 + b.val % 16 = b.val
    omega

theorem hexEncodeBytes_length (bs : List Byte) : (hexEncodeBytes bs).length = 2 * bs.length := by
  induction bs with
  | nil => rfl
  | cons b bs ih => simp [hexEncodeBytes, ih]; omega

theorem hexDigit_fin_ne_colon : ∀ n : Fin 16, hexDigit n.val ≠ ':' := by
  decide

theorem mem_hexEncode_ne_colon (bs : List Byte) : ∀ c ∈ hexEncodeBytes bs, c ≠ ':' := by
  induction bs with
  | nil => simp [hexEncodeBytes]
  | cons b bs ih =>
    have hd : b.val / 16 < 16 := by have := b.isLt; omega
    have hm : b.val % 16 < 16 := by have := b.isLt; omega
    intro c hc
    rcases List.mem_cons.mp hc with rfl | hc2
    · exact hexDigit_fin_ne_colon ⟨b.val / 16, hd⟩
    · rcases List.mem_cons.mp hc2 with rfl | hc3
      · exact hexDigit_fin_ne_colon ⟨b.val % 16, hm⟩
      · exact ih c hc3

theorem ne_colon_of_isHexDigitChar {c : Char} (h : isHexDigitChar c = true) : c ≠ ':' := by
  rintro rfl
  exact absurd h (by decide)

theorem splitOnChar_ne_nil (sep : Char) (l : List Char) : splitOnChar sep l ≠ [] := by
  cases l with
  | nil => simp [splitOnChar]
  | cons c cs =>
    simp only [splitOnChar]
    split
    · simp
    · split <;> simp

theorem splitOnChar_length (sep : Char) (l : List Char) :
    (splitOnChar sep l).length = l.count sep + 1 := by
  induction l with
  | nil => simp [splitOnChar, List.count_nil]
  | cons c cs ih =>
    by_cases h : c = sep
    · subst h
      simp [splitOnChar, ih, List.count_cons]
    · rcases hr : splitOnChar sep cs with _ | ⟨hd, tl⟩
      · exact absurd hr (splitOnChar_ne_nil sep cs)
      · rw [hr] at ih
        simp only [splitOnChar, if_neg h, hr, List.length_cons] at ih ⊢
        rw [List.count_cons]
        simp [h, ih]

theorem splitOnChar_of_all_ne {sep : Char} {l : List Char} (h : ∀ c ∈ l, c ≠ sep) :
    splitOnChar sep l = [l] := by
  induction l with
  | nil => rfl
  | cons c cs ih =>
    have hc : c ≠ sep := h c (by simp)
    have ih2 := ih (fun x hx => h x (by simp [hx]))
    simp only [splitOnChar, if_neg hc, ih2]

theorem splitOnChar_append_sep {sep : Char} {a b : List Char} (h : ∀ c ∈ a, c ≠ sep) :
    splitOnChar sep (a ++ sep :: b) = a :: splitOnChar sep b := by
  induction a with
  | nil => simp [splitOnChar]
  | cons c cs ih =>
    have hc : c ≠ sep := h c (by simp)
    have ih2 := ih (fun x hx => h x (by simp [hx]))
    simp only [List.cons_append, splitOnChar, if_neg hc, List.append_eq, ih2]

theorem encryptModel_data (encFn : List Byte → List Byte → String → String)
    (key iv : List Byte) (p : String) :
    (encryptModel encFn key iv p).data
      = hexEncodeBytes iv ++ ':' :: (encFn key iv p).data := by
  simp [encryptModel, data_append]

/-! ## Metafield store and API-key manager (src/unnamed/part_001: app/facades/apiKeys.ts)

The metafield store is the external collaborator boundary: a store state is
a map from (namespace, key) to the stored string; setMetafield returns the
updated state (its boolean result is ignored by every caller in apiKeys.ts,
which only converts thrown errors to false).  The encryption facade enters
as an oracle; Except.error models a throw. -/

abbrev Store := String → String → Option String

def emptyStore : Store := fun _ _ => none

def setMetafield (store : Store) (ns key value : String) : Store :=
  fun ns2 key2 => if ns2 = ns ∧ key2 = key then some value else store ns2 key2

def API_KEY_NAMESPACE : String := "apiservice"
def API_KEY_FIELD_KEY : String := "encrypted_key"
def API_KEY_PROVIDER_KEY : String := "provider"

/-- JavaScript `a || b` for a string-or-null a: falsy is null or ''. -/
def jsOrStr (o : Option String) (dflt : String) : String :=
  match o with
  | some s => if s.isEmpty then dflt else s
  | none => dflt

def saveApiKey (encryptFn : String → Except String String) (store : Store)
    (provider apiKey : String) : Bool × Store :=
  match encryptFn apiKey with
  | Except.error _ => (false, store)
  | Except.ok encryptedKey =>
    let s1 := setMetafield store API_KEY_NAMESPACE API_KEY_FIELD_KEY encryptedKey
    let s2 := setMetafield s1 API_KEY_NAMESPACE API_KEY_PROVIDER_KEY provider
    (true, s2)

def getApiKey (decryptFn : String → Except String String) (store : Store)
    (providerFilter : Option String) : Option ApiKeyRecord :=
  match store API_KEY_NAMESPACE API_KEY_FIELD_KEY with
  | none => none
  | some encryptedKey =>
    if encryptedKey.isEmpty then none
    else
      let storedProvider := store API_KEY_NAMESPACE API_KEY_PROVIDER_KEY
      let mismatch : Bool :=
        match providerFilter with
        | some pf => !pf.isEmpty && storedProvider != some pf
        | none => false
      if mismatch then none
      else
        match decryptFn encryptedKey with
        | Except.error _ => none
        | Except.ok apiKey => some { provider := jsOrStr storedProvider "unknown", apiKey := apiKey }

def deleteApiKey (store : Store) (provider : String) : Bool × Store :=
  let storedProvider := store API_KEY_NAMESPACE API_KEY_PROVIDER_KEY
  if storedProvider ≠ some provider then (false, store)
  else
    let s1 := setMetafield store API_KEY_NAMESPACE API_KEY_FIELD_KEY ""
    let s2 := setMetafield s1 API_KEY_NAMESPACE API_KEY_PROVIDER_KEY ""
    (true, s2)

/-- A store holding a DeepSeek credential, for concrete witnesses. -/
def sampleDeepseekStore : Store :=
  setMetafield (setMetafield emptyStore "apiservice" "encrypted_key" "00:aa")
    "apiservice" "provider" "deepseekApiKey"

/-- A store holding an OpenAI credential, for concrete witnesses. -/
def sampleOpenaiStore : Store :=
  setMetafield (setMetafield emptyStore "apiservice" "encrypted_key" "00:aa")
    "apiservice" "provider" "openaiApiKey"

/-! ## Providers (src/app/utils/ai-providers/openai.ts and deepseek.ts)

The client construction, prompt building and HTTP round trip are the
external boundary: they enter as an oracle whose outcome is either the raw
reply text (choices[0].message?.content || '') with the usage counters, or
the failure the catch block receives (an HTTP-status error or a plain
thrown error). -/

inductive NetOutcome
  | ok (raw : String) (promptTokens completionTokens totalTokens : Option Nat)
  | httpErr (status : Nat) (message : Option String)
  | err (message : Option String)

def noPreviousContentResult : ContentGenerationResult :=
  { success := false, content := none, error := some "No previous content to regenerate",
    errorCode := some "NO_PREVIOUS_CONTENT", metadata := none }

def openaiGenerateProductContent
    (net : String → ProductData → String → GenerationOptions → NetOutcome)
    (apiKey : String) (productData : ProductData) (customPrompt : String)
    (options : GenerationOptions) : ContentGenerationResult :=
  match net apiKey productData customPrompt options with
  | NetOutcome.ok raw pt ct tt =>
    { success := true, content := some (parseGeneratedContent raw), error := none,
      errorCode := none,
      metadata := some { model := "gpt-4", promptTokens := pt, completionTokens := ct, totalTokens := tt } }
  | NetOutcome.httpErr 401 _ =>
    { success := false, content := none,
      error := some "Invalid API key. Please check your OpenAI API key in the settings.",
      errorCode := some "INVALID_API_KEY", metadata := none }
  | NetOutcome.httpErr 429 _ =>
    { success := false, content := none,
      error := some "OpenAI rate limit exceeded. Please try again later.",
      errorCode := some "RATE_LIMIT_EXCEEDED", metadata := none }
  | NetOutcome.httpErr _ m =>
    { success := false, content := none,
      error := some (jsOrStr m "An error occurred while generating content with OpenAI."),
      errorCode := some "OPENAI_ERROR", metadata := none }
  | NetOutcome.err m =>
    { success := false, content := none,
      error := some (jsOrStr m "An error occurred while generating content with OpenAI."),
      errorCode := some "OPENAI_ERROR", metadata := none }

def openaiRegenerateContent
    (net : String → ProductContent → String → GenerationOptions → NetOutcome)
    (apiKey : String) (previousResult : ContentGenerationResult) (feedback : String)
    (options : GenerationOptions) : ContentGenerationResult :=
  match previousResult.success, previousResult.content with
  | true, some prev =>
    match net apiKey prev feedback options with
    | NetOutcome.ok raw pt ct tt =>
      { success := true, content := some (parseGeneratedContent raw), error := none,
        errorCode := none,
        metadata := some { model := "gpt-4", promptTokens := pt, completionTokens := ct, totalTokens := tt } }
    | NetOutcome.httpErr _ m =>
      { success := false, content := none,
        error := some (jsOrStr m "An error occurred while regenerating content with OpenAI."),
        errorCode := some "OPENAI_REGENERATION_ERROR", metadata := none }
    | NetOutcome.err m =>
      { success := false, content := none,
        error := some (jsOrStr m "An error occurred while regenerating content with OpenAI."),
        errorCode := some "OPENAI_REGENERATION_ERROR", metadata := none }
  | _, _ => noPreviousContentResult

def deepseekGenerateProductContent
    (net : String → ProductData → String → GenerationOptions → NetOutcome)
    (apiKey : String) (productData : ProductData) (customPrompt : String)
    (options : GenerationOptions) : ContentGenerationResult :=
  match net apiKey productData customPrompt options with
  | NetOutcome.ok raw pt ct tt =>
    { success := true, content := some (parseGeneratedContent raw), error := none,
      errorCode := none,
      metadata := some { model := "deepseek-coder-v2", promptTokens := pt, completionTokens := ct, totalTokens := tt } }
  | NetOutcome.httpErr 401 _ =>
    { success := false, content := none,
      error := some "Invalid API key. Please check your DeepSeek API key in the settings.",
      errorCode := some "INVALID_API_KEY", metadata := none }
  | NetOutcome.httpErr 429 _ =>
    { success := false, content := none,
      error := some "DeepSeek rate limit exceeded. Please try again later.",
      errorCode := some "RATE_LIMIT_EXCEEDED", metadata := none }
  | NetOutcome.httpErr _ m =>
    { success := false, content := none,
      error := some (jsOrStr m "An error occurred while generating content with DeepSeek."),
      errorCode := some "DEEPSEEK_ERROR", metadata := none }
  | NetOutcome.err m =>
    { success := false, content := none,
      error := some (jsOrStr m "An error occurred while generating content with DeepSeek."),
      errorCode := some "DEEPSEEK_ERROR", metadata := none }

def deepseekRegenerateContent
    (net : String → ProductContent → String → GenerationOptions → NetOutcome)
    (apiKey : String) (previousResult : ContentGenerationResult) (feedback : String)
    (options : GenerationOptions) : ContentGenerationResult :=
  match previousResult.success, previousResult.content with
  | true, some prev =>
    match net apiKey prev feedback options with
    | NetOutcome.ok raw pt ct tt =>
      { success := true, content := some (parseGeneratedContent raw), error := none,
        errorCode := none,
        metadata := some { model := "deepseek-coder-v2", promptTokens := pt, completionTokens := ct, totalTokens := tt } }
    | NetOutcome.httpErr _ m =>
      { success := false, content := none,
        error := some (jsOrStr m "An error occurred while regenerating content with DeepSeek."),
        errorCode := some "DEEPSEEK_REGENERATION_ERROR", metadata := none }
    | NetOutcome.err m =>
      { success := false, content := none,
        error := some (jsOrStr m "An error occurred while regenerating content with DeepSeek."),
        errorCode := some "DEEPSEEK_REGENERATION_ERROR", metadata := none }
  | _, _ => noPreviousContentResult

/-! ## Content generation facade (src/app/facades/aiService.ts)

generateProductContent / regenerateContent: credential lookup (null yields
NO_API_KEY), provider selection (a throw is caught and reported as
GENERATION_FAILED / REGENERATION_FAILED with the thrown message), then
delegation to the selected provider.  The embedded providers are total, as
the source providers catch their own exceptions. -/

def noApiKeyResult : ContentGenerationResult :=
  { success := false, content := none,
    error := some "No API key configured. Please configure an API key in the settings.",
    errorCode := some "NO_API_KEY", metadata := none }

def aiServiceGenerateProductContent
    (decryptFn : String → Except String String) (store : Store)
    (netO netD : String → ProductData → String → GenerationOptions → NetOutcome)
    (productData : ProductData) (customPrompt : String)
    (options : GenerationOptions) : ContentGenerationResult :=
  match getApiKey decryptFn store none with
  | none => noApiKeyResult
  | some apiKeyData =>
    match getProvider apiKeyData.provider with
    | Except.error msg =>
      { success := false, content := none, error := some msg,
        errorCode := some "GENERATION_FAILED", metadata := none }
    | Except.ok AIProvider.openai =>
      openaiGenerateProductContent netO apiKeyData.apiKey productData customPrompt options
    | Except.ok AIProvider.deepseek =>
      deepseekGenerateProductContent netD apiKeyData.apiKey productData customPrompt options

def aiServiceRegenerateContent
    (decryptFn : String → Except String String) (store : Store)
    (netO netD : String → ProductContent → String → GenerationOptions → NetOutcome)
    (previousResult : ContentGenerationResult) (feedback : String)
    (options : GenerationOptions) : ContentGenerationResult :=
  match getApiKey decryptFn store none with
  | none => noApiKeyResult
  | some apiKeyData =>
    match getProvider apiKeyData.provider with
    | Except.error msg =>
      { success := false, content := none, error := some msg,
        errorCode := some "REGENERATION_FAILED", metadata := none }
    | Except.ok AIProvider.openai =>
      openaiRegenerateContent netO apiKeyData.apiKey previousResult feedback options
    | Except.ok AIProvider.deepseek =>
      deepseekRegenerateContent netD apiKeyData.apiKey previousResult feedback options

/-! ## GenerationOptionsSchema (src/app/models/schemas.ts)

zod: z.number().int().min(100, ...).max(500, ...) on length; tone and
includeKeywords are optional and unconstrained beyond their types, so on a
well-typed GenerationOptions value with integral length the validation is
exactly the two inclusive bounds. -/

def generationOptionsSchemaAccepts (options : GenerationOptions) : Bool :=
  decide (100 ≤ options.length) && decide (options.length ≤ 500)

/-! ## Claim theorems -/

/-- C1: the facade's provider selection, applied to the exact identifiers the
settings screen stores ('openaiApiKey', 'deepseekApiKey'), throws the
unsupported-provider error for both: the lowercased scrutinee can never equal
the mixed-case switch labels, so no stored identifier selects a provider. -/
theorem getProvider_rejects_canonical_identifiers :
    getProvider "openaiApiKey" = Except.error "Unsupported AI provider: openaiApiKey" ∧
    getProvider "deepseekApiKey" = Except.error "Unsupported AI provider: deepseekApiKey" := by
  constructor <;> rfl

/-- C6: parsing the raw text "# TITLE\nFoo\n# DESCRIPTION\nBar baz\n# KEYWORDS\na, b, b, \n"
yields title 'Foo', description 'Bar baz', keywords ['a','b','b'] (duplicates
preserved, empty comma tokens dropped), and no seoTitle/seoDescription. -/
theorem parseGeneratedContent_example :
    parseGeneratedContent "# TITLE\nFoo\n# DESCRIPTION\nBar baz\n# KEYWORDS\na, b, b, \n" =
      { title := "Foo", description := "Bar baz", seoTitle := none,
        seoDescription := none, keywords := some ["a", "b", "b"] } := by
  rfl

/-- C3: under a fixed key, for any cipher oracle pair that is hex-valued and
inverts itself on this key/IV/plaintext (the AES-256-CBC contract the source
relies on), decrypt(encrypt(P)) = P; and two encryptions of the same
plaintext under distinct fresh 16-byte IVs yield distinct ciphertext tokens,
because the hex-encoded IV prefix of the token differs. -/
theorem encrypt_decrypt_roundtrip_and_fresh_iv
    (encFn : List Byte → List Byte → String → String)
    (decFn : List Byte → List Byte → String → Option String)
    (key iv iv2 : List Byte) (p : String)
    (hcipher : decFn key iv (encFn key iv p) = some p)
    (hhex : ∀ c ∈ (encFn key iv p).data, isHexDigitChar c)
    (hiv : iv.length = 16) (hiv2 : iv2.length = 16) :
    decryptModel decFn key (encryptModel encFn key iv p) = Except.ok p ∧
    (iv ≠ iv2 → encryptModel encFn key iv p ≠ encryptModel encFn key iv2 p) := by
  have hne : ∀ c ∈ (encFn key iv p).data, c ≠ ':' :=
    fun c hc => ne_colon_of_isHexDigitChar (hhex c hc)
  constructor
  · have hsplit : splitOnChar ':' (encryptModel encFn key iv p).data
        = [hexEncodeBytes iv, (encFn key iv p).data] := by
      rw [encryptModel_data, splitOnChar_append_sep (mem_hexEncode_ne_colon iv),
        splitOnChar_of_all_ne hne]
    unfold decryptModel
    rw [hsplit]
    simp only [hexDecode_hexEncode, mk_data, hcipher]
  · intro hneiv heq
    have hd : (encryptModel encFn key iv p).data = (encryptModel encFn key iv2 p).data := by
      rw [heq]
    rw [encryptModel_data, encryptModel_data] at hd
    have hlen : (hexEncodeBytes iv).length = (hexEncodeBytes iv2).length := by
      rw [hexEncodeBytes_length, hexEncodeBytes_length, hiv, hiv2]
    obtain ⟨h1, -⟩ := List.append_inj hd hlen
    have hdec := hexDecode_hexEncode iv
    rw [h1, hexDecode_hexEncode] at hdec
    exact hneiv (Option.some.inj hdec).symm

/-- Witness for C3 at a concrete cipher, key, IV pair and plaintext. -/
theorem encrypt_decrypt_roundtrip_witness :
    decryptModel (fun _ _ _ => some "") []
      (encryptModel (fun _ _ _ => "") [] (List.replicate 16 (0 : Byte)) "") = Except.ok "" ∧
    (List.replicate 16 (0 : Byte) ≠ List.replicate 15 (0 : Byte) ++ [(1 : Byte)] →
      encryptModel (fun _ _ _ => "") [] (List.replicate 16 (0 : Byte)) "" ≠
        encryptModel (fun _ _ _ => "") [] (List.replicate 15 (0 : Byte) ++ [(1 : Byte)]) "") :=
  encrypt_decrypt_roundtrip_and_fresh_iv (fun _ _ _ => "") (fun _ _ _ => some "") []
    (List.replicate 16 (0 : Byte)) (List.replicate 15 (0 : Byte) ++ [(1 : Byte)]) ""
    rfl (by decide) (by decide) (by decide)

/-- C7: decrypt fails with the decryption error on every token whose number
of ':' delimiters is not exactly one (split does not yield two parts), for
every cipher oracle and key: no plaintext is ever returned for such tokens. -/
theorem decrypt_fails_without_single_delimiter
    (decFn : List Byte → List Byte → String → Option String)
    (key : List Byte) (token : String)
    (h : token.data.count ':' ≠ 1) :
    decryptModel decFn key token = Except.error "Failed to decrypt data" := by
  have hlen : (splitOnChar ':' token.data).length ≠ 2 := by
    rw [splitOnChar_length]
    omega
  unfold decryptModel
  rcases hr : splitOnChar ':' token.data with _ | ⟨a, _ | ⟨b, _ | ⟨c, rest⟩⟩⟩
  · rfl
  · rfl
  · rw [hr] at hlen
    simp at hlen
  · rfl

/-- Witness for C7 at the delimiter-free token "abc". -/
theorem decrypt_fails_witness :
    decryptModel (fun _ _ _ => some "secret") [] "abc" = Except.error "Failed to decrypt data" :=
  decrypt_fails_without_single_delimiter (fun _ _ _ => some "secret") [] "abc" (by decide)

/-- C4: when the API-key manager returns null, the facade's
generateProductContent returns the NO_API_KEY failure for every product,
prompt, options and every provider oracle pair — the result does not depend
on the oracles, so no provider method is invoked. -/
theorem generate_without_credential_no_api_key
    (decryptFn : String → Except String String) (store : Store)
    (netO netD : String → ProductData → String → GenerationOptions → NetOutcome)
    (productData : ProductData) (customPrompt : String) (options : GenerationOptions)
    (h : getApiKey decryptFn store none = none) :
    aiServiceGenerateProductContent decryptFn store netO netD productData customPrompt options
      = noApiKeyResult := by
  unfold aiServiceGenerateProductContent
  rw [h]

/-- Witness for C4 on the empty store. -/
theorem generate_without_credential_witness :
    getApiKey (fun _ => Except.error "e") emptyStore none = none ∧
    aiServiceGenerateProductContent (fun _ => Except.error "e") emptyStore
        (fun _ _ _ _ => NetOutcome.err none) (fun _ _ _ _ => NetOutcome.err none)
        { id := "gid", title := "T", description := none, images := [] } ""
        { length := 250, tone := none, includeKeywords := none } = noApiKeyResult :=
  ⟨rfl, generate_without_credential_no_api_key (fun _ => Except.error "e") emptyStore
    (fun _ _ _ _ => NetOutcome.err none) (fun _ _ _ _ => NetOutcome.err none)
    { id := "gid", title := "T", description := none, images := [] } ""
    { length := 250, tone := none, includeKeywords := none } rfl⟩

/-- C5: when the stored provider identifier differs from the requested one,
deleteApiKey returns false and performs no metafield write: the store state
it returns is exactly the input state. -/
theorem deleteApiKey_mismatch_is_noop (store : Store) (p : String)
    (h : store API_KEY_NAMESPACE API_KEY_PROVIDER_KEY ≠ some p) :
    deleteApiKey store p = (false, store) := by
  simp [deleteApiKey, h]

/-- Witness for C5: stored provider 'deepseekApiKey', requested 'openaiApiKey'. -/
theorem deleteApiKey_mismatch_witness :
    sampleDeepseekStore API_KEY_NAMESPACE API_KEY_PROVIDER_KEY ≠ some "openaiApiKey" ∧
    deleteApiKey sampleDeepseekStore "openaiApiKey" = (false, sampleDeepseekStore) :=
  ⟨by decide, deleteApiKey_mismatch_is_noop sampleDeepseekStore "openaiApiKey" (by decide)⟩

/-- C10: when deleteApiKey returns true, both metafields remain present but
hold the empty string, and getApiKey on the resulting store returns null
because it treats an empty encrypted-key value as an absent credential. -/
theorem deleteApiKey_true_clears_credential (store store2 : Store) (p : String)
    (decryptFn : String → Except String String)
    (h : deleteApiKey store p = (true, store2)) :
    getApiKey decryptFn store2 none = none ∧
    store2 API_KEY_NAMESPACE API_KEY_FIELD_KEY = some "" ∧
    store2 API_KEY_NAMESPACE API_KEY_PROVIDER_KEY = some "" := by
  simp only [deleteApiKey] at h
  split at h
  · exact absurd (congrArg Prod.fst h) (by simp)
  · have h2 := congrArg Prod.snd h
    simp only at h2
    subst h2
    refine ⟨?_, ?_, ?_⟩
    · simp [getApiKey, setMetafield, API_KEY_NAMESPACE, API_KEY_FIELD_KEY, API_KEY_PROVIDER_KEY]
      intro hf
      exact absurd hf (by decide)
    · simp [setMetafield, API_KEY_NAMESPACE, API_KEY_FIELD_KEY, API_KEY_PROVIDER_KEY]
    · simp [setMetafield, API_KEY_NAMESPACE, API_KEY_FIELD_KEY, API_KEY_PROVIDER_KEY]

/-- Witness for C10: deleting the matching provider from a store holding an
OpenAI credential. -/
theorem deleteApiKey_true_clears_witness :
    getApiKey (fun _ => Except.ok "sk") (deleteApiKey sampleOpenaiStore "openaiApiKey").2 none
        = none ∧
    (deleteApiKey sampleOpenaiStore "openaiApiKey").2 API_KEY_NAMESPACE API_KEY_FIELD_KEY
        = some "" ∧
    (deleteApiKey sampleOpenaiStore "openaiApiKey").2 API_KEY_NAMESPACE API_KEY_PROVIDER_KEY
        = some "" :=
  deleteApiKey_true_clears_credential sampleOpenaiStore
    (deleteApiKey sampleOpenaiStore "openaiApiKey").2 "openaiApiKey"
    (fun _ => Except.ok "sk") rfl

/-- Counterexample to C9 as stated: saveApiKey accepts and stores the
identifier 'notAProvider', which is outside {openaiApiKey, deepseekApiKey},
and getApiKey then returns a record carrying that identifier. -/
theorem apiKey_provider_unvalidated_counterexample :
    getApiKey (fun _ => Except.ok "sk-123")
        (saveApiKey (fun s => Except.ok ("enc" ++ s)) emptyStore "notAProvider" "sk-123").2 none
      = some { provider := "notAProvider", apiKey := "sk-123" } ∧
    "notAProvider" ≠ "openaiApiKey" ∧ "notAProvider" ≠ "deepseekApiKey" :=
  ⟨rfl, by decide, by decide⟩

/-- C9 amended: saveApiKey stores whatever provider string it is given, and
getApiKey reports the stored string verbatim (or 'unknown' when it is empty
or absent); membership in the statically known provider set is enforced
only later, at provider resolution. -/
theorem saveApiKey_stores_any_provider_string
    (encryptFn decryptFn : String → Except String String) (store : Store)
    (provider apiKey encrypted : String) (r : ApiKeyRecord)
    (henc : encryptFn apiKey = Except.ok encrypted)
    (hget : getApiKey decryptFn (saveApiKey encryptFn store provider apiKey).2 none = some r) :
    (saveApiKey encryptFn store provider apiKey).2 API_KEY_NAMESPACE API_KEY_PROVIDER_KEY
        = some provider ∧
    r.provider = (if provider.isEmpty then "unknown" else provider) := by
  have hsnd : (saveApiKey encryptFn store provider apiKey).2
      = setMetafield (setMetafield store API_KEY_NAMESPACE API_KEY_FIELD_KEY encrypted)
          API_KEY_NAMESPACE API_KEY_PROVIDER_KEY provider := by
    simp [saveApiKey, henc]
  rw [hsnd] at hget ⊢
  refine ⟨by simp [setMetafield], ?_⟩
  simp [getApiKey, setMetafield, API_KEY_NAMESPACE, API_KEY_FIELD_KEY,
    API_KEY_PROVIDER_KEY] at hget
  by_cases he : encrypted.isEmpty
  · simp [he] at hget
  · simp [he] at hget
    cases hdec : decryptFn encrypted with
    | error msg => simp [hdec] at hget
    | ok k =>
      simp [hdec, jsOrStr] at hget
      rw [← hget]

/-- Witness for the amended C9 with the stored identifier 'foo'. -/
theorem saveApiKey_stores_any_provider_witness :
    (saveApiKey (fun s => Except.ok ("enc" ++ s)) emptyStore "foo" "sk").2
        API_KEY_NAMESPACE API_KEY_PROVIDER_KEY = some "foo" ∧
    ({ provider := "foo", apiKey := "sk" } : ApiKeyRecord).provider
        = (if ("foo" : String).isEmpty then "unknown" else "foo") :=
  saveApiKey_stores_any_provider_string (fun s => Except.ok ("enc" ++ s)) (fun _ => Except.ok "sk")
    emptyStore "foo" "sk" "encsk" { provider := "foo", apiKey := "sk" } rfl rfl

/-- Counterexample to C2 as stated: with no stored credential, the facade's
regenerateContent applied to a failed previousResult reports NO_API_KEY,
not NO_PREVIOUS_CONTENT. -/
theorem facade_regenerate_no_api_key_counterexample :
    (aiServiceRegenerateContent (fun _ => Except.error "boom") emptyStore
        (fun _ _ _ _ => NetOutcome.err none) (fun _ _ _ _ => NetOutcome.err none)
        { success := false, content := none, error := some "x",
          errorCode := some "GENERATION_FAILED", metadata := none }
        "make it shorter" { length := 200, tone := none, includeKeywords := none }).errorCode
      = some "NO_API_KEY" ∧
    (some "NO_API_KEY" : Option String) ≠ some "NO_PREVIOUS_CONTENT" :=
  ⟨rfl, by decide⟩

/-- C2 amended: the NO_PREVIOUS_CONTENT precondition check lives in the
providers: both provider-level regenerateContent implementations return the
NO_PREVIOUS_CONTENT failure whenever previousResult.success is false or
previousResult.content is absent, before any network call (the result does
not depend on the oracle).  Through the facade, credential lookup and
provider resolution run first, so a missing credential reports NO_API_KEY
instead. -/
theorem provider_regenerate_requires_previous_content
    (netO netD : String → ProductContent → String → GenerationOptions → NetOutcome)
    (apiKeyO apiKeyD feedback : String) (options : GenerationOptions)
    (previousResult : ContentGenerationResult)
    (h : previousResult.success = false ∨ previousResult.content = none) :
    openaiRegenerateContent netO apiKeyO previousResult feedback options
        = noPreviousContentResult ∧
    deepseekRegenerateContent netD apiKeyD previousResult feedback options
        = noPreviousContentResult := by
  obtain ⟨s, c, e, ec, m⟩ := previousResult
  simp only at h
  rcases h with rfl | rfl
  · exact ⟨rfl, rfl⟩
  · cases s
    · exact ⟨rfl, rfl⟩
    · exact ⟨rfl, rfl⟩

/-- Witness for the amended C2 at a failed previous result. -/
theorem provider_regenerate_requires_previous_witness :
    openaiRegenerateContent (fun _ _ _ _ => NetOutcome.err none) "k"
        { success := false, content := none, error := some "x",
          errorCode := some "GENERATION_FAILED", metadata := none } "fb"
        { length := 200, tone := none, includeKeywords := none } = noPreviousContentResult ∧
    deepseekRegenerateContent (fun _ _ _ _ => NetOutcome.err none) "k"
        { success := false, content := none, error := some "x",
          errorCode := some "GENERATION_FAILED", metadata := none } "fb"
        { length := 200, tone := none, includeKeywords := none } = noPreviousContentResult :=
  provider_regenerate_requires_previous_content
    (fun _ _ _ _ => NetOutcome.err none) (fun _ _ _ _ => NetOutcome.err none) "k" "k" "fb"
    { length := 200, tone := none, includeKeywords := none }
    { success := false, content := none, error := some "x",
      errorCode := some "GENERATION_FAILED", metadata := none } (Or.inl rfl)

/-- C8: GenerationOptionsSchema accepts a well-typed options object with
integer length n exactly when 100 ≤ n ≤ 500; in particular it rejects 50
and 600 and accepts the inclusive boundary values 100 and 500. -/
theorem generationOptions_length_bounds :
    (∀ (n : Int) (tone : Option Tone) (kw : Option (List String)),
      generationOptionsSchemaAccepts { length := n, tone := tone, includeKeywords := kw } = true
        ↔ 100 ≤ n ∧ n ≤ 500) ∧
    generationOptionsSchemaAccepts { length := 50, tone := none, includeKeywords := none }
        = false ∧
    generationOptionsSchemaAccepts { length := 600, tone := none, includeKeywords := none }
        = false ∧
    generationOptionsSchemaAccepts { length := 100, tone := none, includeKeywords := none }
        = true ∧
    generationOptionsSchemaAccepts { length := 500, tone := none, includeKeywords := none }
        = true := by
  refine ⟨?_, by decide, by decide, by decide, by decide⟩
  intro n tone kw
  simp [generationOptionsSchemaAccepts]

end Spec2Proof
